import Mathlib

/-!
Shallow embedding of the order-to-video pipeline of the quantum_tour_backend
repository, together with theorems settling the frozen claims about it.

Statuses are modelled as Lean `String`s, exactly as the source stores them in
the `videos.status` column (src/app/models/database.py line 84).  The Python
string methods used by the source (`.lower()`, `.upper()`, `.strip()`,
`.split("@")[0]`, truthiness of strings and of `None`) are modelled by
character-level helpers below, restricted to the ASCII behaviour that the
identifiers and status words in this code base exercise.
-/

namespace QuantumTour

/-- Model of Python `str.lower` on one ASCII character. -/
def pyCharLower (c : Char) : Char :=
  if 'A' ≤ c ∧ c ≤ 'Z' then Char.ofNat (c.toNat + 32) else c

/-- Model of Python `str.upper` on one ASCII character. -/
def pyCharUpper (c : Char) : Char :=
  if 'a' ≤ c ∧ c ≤ 'z' then Char.ofNat (c.toNat - 32) else c

/-- Model of Python `str.lower`. -/
def pyLower (s : String) : String := String.mk (s.data.map pyCharLower)

/-- Model of Python `str.upper`. -/
def pyUpper (s : String) : String := String.mk (s.data.map pyCharUpper)

/-- Drop characters satisfying `p` from both ends of a character list. -/
def stripWhile (p : Char → Bool) (cs : List Char) : List Char :=
  ((cs.dropWhile p).reverse.dropWhile p).reverse

/-- Model of Python `str.strip()` (whitespace strip). -/
def pyStrip (s : String) : String := String.mk (stripWhile Char.isWhitespace s.data)

/-- Model of Python `s.split("@")[0]` (also correct when `"@" not in s`,
matching the guarded use in the source). -/
def pyTakeBeforeAt (s : String) : String :=
  String.mk (s.data.takeWhile (fun c => c ≠ '@'))

/-- Model of Python truthiness of an optional string (`None` and `""` are
falsy). -/
def pyTruthy : Option String → Bool
  | none => false
  | some s => s ≠ ""

/-- Model of Python `n or d` for an integer-valued column (`0` is falsy). -/
def pyOrDefault (n : Nat) (d : Nat) : Nat := if n = 0 then d else n

/-! ## Status vocabulary and order-status aggregation -/

/-- Source: src/app/models/database.py line 84 - the documented status
vocabulary `queued|processing|succeeded|failed`, which is also the validation
set of src/app/routers/admin.py line 229. -/
def VALID_STATUSES : List String := ["queued", "processing", "succeeded", "failed"]

/-- Source: src/app/routers/admin.py lines 181-188 (`get_order_status`).
Given the statuses of the highest-iteration video per image of an order,
compute the aggregate order status exactly as the admin endpoint does:

    if all(v.status in ["completed", "succeeded"] for v in ...): "completed"
    elif any(v.status == "processing" ...): "processing"
    elif any(v.status == "failed" ...): "failed"
    else: "submitted"

Note Python's `all` over an empty collection is `True`. -/
def admin_order_status (statuses : List String) : String :=
  if statuses.all (fun s => s == "completed" || s == "succeeded") then "completed"
  else if statuses.any (fun s => s == "processing") then "processing"
  else if statuses.any (fun s => s == "failed") then "failed"
  else "submitted"

/-- Source: src/app/routers/Client.py lines 300-307 (`get_client_orders`).
The client-facing aggregation:

    if statuses and all(s == "succeeded" for s in statuses): "completed"
    elif any(s == "processing" for s in statuses): "processing"
    else: "submitted"

There is no `failed` branch in this endpoint. -/
def client_order_status (statuses : List String) : String :=
  if !statuses.isEmpty && statuses.all (fun s => s == "succeeded") then "completed"
  else if statuses.any (fun s => s == "processing") then "processing"
  else "submitted"

/-! ## Status writes: webhook and admin update -/

/-- Source: src/app/routers/upload.py lines 712-744 (`runwayml_webhook`).
The status stored on the matched video row, as a function of its current
status and the payload's `status` field (`none` models an absent field):

    if status == "succeeded": video.status = "succeeded"
    elif status == "failed": video.status = "failed"
    else:
        if status: video.status = status

An absent or empty status leaves the row unchanged; any other string is
stored verbatim. -/
def runwayml_webhook_status (current : String) (payloadStatus : Option String) : String :=
  match payloadStatus with
  | none => current
  | some s =>
    if s = "succeeded" then "succeeded"
    else if s = "failed" then "failed"
    else if s ≠ "" then s
    else current

/-- Source: src/app/routers/admin.py lines 226-228 (`admin_update_order_status`).
Normalisation of the admin-supplied status:
`(payload.get("status") or "").strip().lower()` followed by the mapping
`{"completed": "succeeded", "pending": "queued"}`. -/
def admin_internal_status (raw : String) : String :=
  let s := pyLower (pyStrip raw)
  if s = "completed" then "succeeded"
  else if s = "pending" then "queued"
  else s

/-- Source: src/app/routers/admin.py lines 226-262 (`admin_update_order_status`).
Returns the status actually written to the latest video row, or `none` when
the request is rejected with HTTP 400 (`internal_status` outside the valid
set). -/
def admin_update_order_status (raw : String) : Option String :=
  let internal := admin_internal_status raw
  if internal ∈ VALID_STATUSES then some internal else none

/-! ## Folder naming and archival destination paths -/

/-- Source: src/app/routers/upload.py lines 65-74 (`slugify_path_component`).

    if not name: return ""
    s = name.strip().lower()
    if "@" in s: s = s.split("@")[0]
    s = re.sub(r"[^a-z0-9._-]+", "_", s)
    s = s.strip("._-")
    return s or ""
-/
def isAllowedSlugChar (c : Char) : Bool :=
  ('a' ≤ c && c ≤ 'z') || ('0' ≤ c && c ≤ '9') || c = '.' || c = '_' || c = '-'

/-- One step of the model of `re.sub(r"[^a-z0-9._-]+", "_", s)`: the Bool
component records whether the previous character belonged to a (collapsed)
disallowed run. -/
def collapseStep (acc : List Char × Bool) (c : Char) : List Char × Bool :=
  if isAllowedSlugChar c then (acc.1 ++ [c], false)
  else if acc.2 then acc
  else (acc.1 ++ ['_'], true)

/-- Model of `re.sub(r"[^a-z0-9._-]+", "_", s)`: each maximal run of
disallowed characters becomes a single underscore. -/
def collapseDisallowed (cs : List Char) : List Char :=
  (cs.foldl collapseStep ([], false)).1

/-- Model of Python `s.strip("._-")`. -/
def isSlugPunct (c : Char) : Bool := c = '.' || c = '_' || c = '-'

/-- Source: src/app/routers/upload.py lines 65-74. -/
def slugify_path_component (name : Option String) : String :=
  if ¬ pyTruthy name then ""
  else
    let s := pyLower (pyStrip ((name.getD "")))
    let s := pyTakeBeforeAt s
    String.mk (stripWhile isSlugPunct (collapseDisallowed s.data))

/-- Source: src/app/routers/upload.py lines 76-83 (`build_agent_folder_name`).

    if not display_name: return "user_unknown"
    return slugify_path_component(display_name)
-/
def build_agent_folder_name (displayName : Option String) : String :=
  if ¬ pyTruthy displayName then "user_unknown"
  else slugify_path_component displayName

/-- Minimal model of a `users` row: id, nullable email, nullable name
(src/app/models/database.py lines 107-115). -/
structure UserRec where
  id : Nat
  email : Option String
  name : Option String
deriving DecidableEq, Repr

/-- Source: the display-identity expression repeated at
src/app/routers/upload.py lines 219-221, 264-266 and 449-451:

    display = ((u.email.split("@")[0]) if (u and u.email)
               else (u.name or f"user_{u.id}")) if u else None
-/
def displayIdentity : Option UserRec → Option String
  | none => none
  | some u =>
    if pyTruthy u.email then some (pyTakeBeforeAt (u.email.getD ""))
    else some (if pyTruthy u.name then u.name.getD "" else "user_" ++ toString u.id)

/-- Source: src/app/routers/upload.py lines 444-454 (`process_videos_for_order`):

    user_folder = ""
    try:
        if resolved_user_id:
            user = ...
            display = ...
            user_folder = build_agent_folder_name(display)
    except Exception:
        user_folder = ""

`none` models a falsy `resolved_user_id`; `some u` models a truthy id whose
user lookup returns `u` (possibly `none` when the row is missing). -/
def processUserFolder (resolvedUser : Option (Option UserRec)) : String :=
  match resolvedUser with
  | none => ""
  | some u => build_agent_folder_name (displayIdentity u)

/-- Source: src/app/routers/upload.py lines 255-274 (`poll_runway_status`):

    user_folder = ""
    try:
        if getattr(video, "user_id", None):
            u = ...
            display = ...
            agent_folder = build_agent_folder_name(display)
    except Exception:
        user_folder = ""

The sanitized name is bound to `agent_folder`, which is never read again;
`user_folder` keeps its initial value `""`. -/
def pollUserFolder (resolvedUser : Option (Option UserRec)) : String :=
  let user_folder : String := ""
  let _agent_folder : String :=
    match resolvedUser with
    | none => ""
    | some u => build_agent_folder_name (displayIdentity u)
  user_folder

/-- Source: src/app/routers/upload.py lines 271-274 (`poll_runway_status`):

    file_name = f"video_{video.id}.mp4"
    dropbox_path = (f"/quantumtour/{user_folder}/video output/{file_name}"
                    if user_folder else f"/quantumtour/video output/{file_name}")
-/
def pollDropboxPath (resolvedUser : Option (Option UserRec)) (videoId : Nat) : String :=
  let user_folder := pollUserFolder resolvedUser
  let file_name := "video_" ++ toString videoId ++ ".mp4"
  if user_folder ≠ "" then "/quantumtour/" ++ user_folder ++ "/video output/" ++ file_name
  else "/quantumtour/video output/" ++ file_name

/-- Source: src/app/routers/upload.py lines 515-521 (`process_videos_for_order`):

    file_name = (f"reorder_{reorder_user_id}_{img_row.id}.mp4"
                 if reorder_user_id else f"video_{img_row.id}.mp4")
    dropbox_path = (f"/quantumtour/{user_folder}/video output/{file_name}"
                    if user_folder else f"/quantumtour/video output/{file_name}")

The filename is keyed by the UploadedImage row id (`img_row.id`); the Video
row is only created afterwards (line 535). -/
def processDropboxPath (resolvedUser : Option (Option UserRec)) (reorderUserId : Option Nat)
    (imageRowId : Nat) : String :=
  let user_folder := processUserFolder resolvedUser
  let file_name :=
    match reorderUserId with
    | some uid => "reorder_" ++ toString uid ++ "_" ++ toString imageRowId ++ ".mp4"
    | none => "video_" ++ toString imageRowId ++ ".mp4"
  if user_folder ≠ "" then "/quantumtour/" ++ user_folder ++ "/video output/" ++ file_name
  else "/quantumtour/video output/" ++ file_name

/-! ## Polling reconciler -/

/-- One Runway task-status response, as consumed by `poll_runway_status`:
`status` models `str(payload.get("status") or "")`, `outputUrl` models the
result of `_extract_output_url_from_task_payload(payload)`. -/
structure TaskPayload where
  status : String
  outputUrl : Option String
deriving DecidableEq, Repr

/-- Observable state of one polling run: the video row's status and URL plus
resource counters (number of external status queries made; accumulated
seconds of `time.sleep`). -/
structure PollState where
  status : String
  videoUrl : Option String
  queries : Nat
  sleeps : Nat
deriving DecidableEq, Repr

/-- Source: src/app/routers/upload.py lines 256-279 (`poll_runway_status`,
SUCCEEDED branch): `final_url = output_url`; a successful Dropbox upload
replaces it with `f"dropbox://{dropbox_path}"`; a failed or raising upload is
caught and leaves `final_url = output_url`. -/
def pollFinalUrl (outputUrl : Option String) (uploadOk : Bool) (dropboxPath : String) :
    Option String :=
  match outputUrl with
  | none => none
  | some u => if uploadOk then some ("dropbox://" ++ dropboxPath) else some u

/-- Source: src/app/routers/upload.py lines 245-318 (`poll_runway_status`,
live mode): the bounded polling loop.  The list holds the successive results
of `check_runway_status` (`none` = request failed / no payload).  Each
iteration makes one external query; a payload whose upper-cased status is
`SUCCEEDED` or `FAILED` terminates the loop after updating the row; anything
else sleeps `interval` seconds and continues; on exhaustion the row is left
untouched. -/
def pollRun (interval : Nat) (uploadOk : Bool) (dropboxPath : String) :
    List (Option TaskPayload) → PollState → PollState
  | [], st => st
  | r :: rest, st =>
    let st1 : PollState := { st with queries := st.queries + 1 }
    match r with
    | none => pollRun interval uploadOk dropboxPath rest { st1 with sleeps := st1.sleeps + interval }
    | some p =>
      if pyUpper p.status = "SUCCEEDED" then
        { st1 with status := "succeeded", videoUrl := pollFinalUrl p.outputUrl uploadOk dropboxPath }
      else if pyUpper p.status = "FAILED" then
        { st1 with status := "failed" }
      else
        pollRun interval uploadOk dropboxPath rest { st1 with sleeps := st1.sleeps + interval }

/-- Source: src/app/routers/upload.py lines 201-320 (`poll_runway_status`):
`for _ in range(max_checks)` driving the loop body above, so the check
results consumed are `checks 0, checks 1, ...` up to `maxChecks` of them. -/
def poll_runway_status (checks : Nat → Option TaskPayload) (uploadOk : Bool)
    (dropboxPath : String) (maxChecks interval : Nat) (st : PollState) : PollState :=
  pollRun interval uploadOk dropboxPath ((List.range maxChecks).map checks) st

/-! ## Initial batch processing outcome -/

/-- Result of the Runway SDK call in `process_videos_for_order`: the task's
`output` list and its id. -/
structure GenResult where
  output : List String
  taskId : String
deriving DecidableEq, Repr

/-- Source: src/app/routers/upload.py lines 497-532 (`process_videos_for_order`,
live branch).  Returns the `(status, video_url, runway_job_id)` triple stored
on the new Video row.  `none` models the SDK call raising:

    video_url = task.output[0]; task_id = task.id; status = "succeeded"
    upload_success = upload_video_to_dropbox(video_url, dropbox_path)
    if upload_success: video_url = f"dropbox://{dropbox_path}"
    else: video_url = None; status = "failed"
    except Exception: status, video_url, task_id = "failed", None, None
-/
def processVideoOutcome (gen : Option GenResult) (uploadOk : Bool) (dropboxPath : String) :
    String × Option String × Option String :=
  match gen with
  | none => ("failed", none, none)
  | some g =>
    match g.output with
    | [] => ("failed", none, none)
    | _ :: _ =>
      if uploadOk then ("succeeded", some ("dropbox://" ++ dropboxPath), some g.taskId)
      else ("failed", none, some g.taskId)

/-! ## Duplicate-processing guard (payment webhook) -/

/-- The three processing-guard fields of an Order row
(src/app/models/database.py lines 42-44).  Timestamps are abstracted to
`Option Nat`. -/
structure OrderFlags where
  is_processing : Bool
  processed_at : Option Nat
  processing_started_at : Option Nat
deriving DecidableEq, Repr

/-- Source: src/app/routers/stripe.py lines 209-239
(`handle_checkout_session_completed`, reorder auto-processing block).
Returns whether `process_videos_for_order` is launched, and the Order's guard
fields afterwards:

    if getattr(new_order, 'is_processing', False): return
    if getattr(new_order, 'processed_at', None) is not None: return
    if new_order and new_order.parent_order_id:
        ... save files ...
        if saved_files: threading.Thread(target=process_videos_for_order, ...).start()

`canLaunch` models `parent_order_id` being set and at least one file saved.
No statement in the repository assigns `is_processing`,
`processing_started_at` or `processed_at`, so the returned flags are the
input flags. -/
def handle_checkout_session_completed (o : OrderFlags) (canLaunch : Bool) :
    Bool × OrderFlags :=
  if o.is_processing then (false, o)
  else if o.processed_at.isSome then (false, o)
  else (canLaunch, o)

/-! ## Iteration numbers at each Video-creation site -/

/-- Source: src/app/routers/upload.py line 836 (`submit_feedback`):
`iteration=(parent_video.iteration or 1) + 1`. -/
def feedback_child_iteration (parentIteration : Nat) : Nat :=
  pyOrDefault parentIteration 1 + 1

/-- Source: src/app/routers/admin.py line 659 (`admin_regenerate_video`):
`iteration=((latest_for_image.iteration if latest_for_image and
latest_for_image.iteration else 0) + 1)`. -/
def admin_regenerate_iteration (latest : Option Nat) : Nat :=
  (match latest with
   | some it => pyOrDefault it 0
   | none => 0) + 1

/-- Source: src/app/routers/upload.py line 542 (`process_videos_for_order`):
every initial batch unit is created with `iteration=1`. -/
def process_initial_iteration : Nat := 1

/-- Source: src/app/routers/admin.py line 462 (`admin_upload_final_video`):
for every image of the user a fresh Video row is created with `iteration=1`,
unconditionally - existing rows for the image are not consulted. -/
def admin_final_video_iteration : Nat := 1

/-- Formalisation of the claimed invariant at one creation event: the new
unit's iteration is strictly greater than the iteration of every previously
existing unit for the same image. -/
def strictlyAboveAll (existingIterations : List Nat) (newIteration : Nat) : Prop :=
  ∀ i ∈ existingIterations, i < newIteration

/-! ## Feedback submission and commit/rollback semantics -/

/-- A `feedback` row (src/app/models/database.py lines 96-103). -/
structure FeedbackRow where
  videoId : Nat
  feedbackText : String
  newPrompt : String
deriving DecidableEq, Repr

/-- The Video-row fields relevant to feedback revisions
(src/app/models/database.py lines 77-94). -/
structure VideoRow where
  id : Nat
  imageId : Nat
  iteration : Nat
  status : String
  videoUrl : Option String
  parentVideoId : Option Nat
  userId : Option Nat
deriving DecidableEq, Repr

/-- A SQLAlchemy session over the two tables `submit_feedback` writes:
committed rows plus the pending (added but not yet committed) rows of the
current transaction. -/
structure DbSession where
  feedbacks : List FeedbackRow
  videos : List VideoRow
  pendingFeedbacks : List FeedbackRow
  pendingVideos : List VideoRow
deriving DecidableEq, Repr

/-- Model of `db.add(feedback_row)`. -/
def DbSession.addFeedback (db : DbSession) (f : FeedbackRow) : DbSession :=
  { db with pendingFeedbacks := db.pendingFeedbacks ++ [f] }

/-- Model of `db.add(video_row)`. -/
def DbSession.addVideo (db : DbSession) (v : VideoRow) : DbSession :=
  { db with pendingVideos := db.pendingVideos ++ [v] }

/-- Model of `db.commit()`: pending rows become durable. -/
def DbSession.commit (db : DbSession) : DbSession :=
  { feedbacks := db.feedbacks ++ db.pendingFeedbacks
    videos := db.videos ++ db.pendingVideos
    pendingFeedbacks := []
    pendingVideos := [] }

/-- Model of `db.rollback()`: pending rows are discarded; committed rows are
untouched. -/
def DbSession.rollback (db : DbSession) : DbSession :=
  { db with pendingFeedbacks := [], pendingVideos := [] }

/-- Source: src/app/routers/upload.py lines 762-859 (`submit_feedback`).
After the parent video and image are found, the Feedback row is added and
committed (step 4, lines 780-783).  `generationOk` models whether the
remaining synchronous steps (image preparation, Runway call, download,
child-row commit) complete; on any exception the handler runs
`db.rollback()` and raises HTTP 500 (lines 855-857).  On success a child
Video row with `iteration=(parent.iteration or 1) + 1` is committed
(lines 832-845) and its id returned. -/
def submit_feedback (db : DbSession) (parent : VideoRow) (feedbackText newPrompt : String)
    (generationOk : Bool) (childId : Nat) (childUrl : String) :
    DbSession × Except String Nat :=
  let db1 := (db.addFeedback ⟨parent.id, feedbackText, newPrompt⟩).commit
  if generationOk then
    let child : VideoRow :=
      ⟨childId, parent.imageId, feedback_child_iteration parent.iteration, "succeeded",
       some childUrl, some parent.id, parent.userId⟩
    ((db1.addVideo child).commit, Except.ok childId)
  else
    (db1.rollback, Except.error "Error generating video")

/-! ## Prompt deriver -/

/-- Source: src/app/services/prompt_generator.py line 88 - the fixed fallback
prompt returned when the OpenAI call fails. -/
def FALLBACK_PROMPT : String :=
  "Short, cinematic shot with warm lighting and smooth, elegant camera movement."

/-- Source: src/app/services/prompt_generator.py lines 15-21
(`_encode_image_to_data_url`).  `fileOk` models whether
`open(image_path, "rb")` succeeds; on failure the exception propagates (the
call sits outside any try block). -/
def encode_image_to_data_url (fileOk : Bool) (dataUrl : String) : Except String String :=
  if fileOk then Except.ok dataUrl else Except.error "FileNotFoundError"

/-- Source: src/app/services/prompt_generator.py lines 23-88
(`generate_cinematic_prompt_from_image`).  `apiKey`/`projectId` are the raw
environment values (the source strips them and raises on emptiness, lines
27-31); `fileOk`/`dataUrl` feed `_encode_image_to_data_url` (line 35, outside
the try block); `apiContent` models the OpenAI call inside the try block:
`none` = the call raised (caught, fallback returned, lines 85-88),
`some c` = it returned with `message.content = c`, delivered as
`(c or "").strip()` (line 83).  An `Except.error` models an exception
propagating to the caller. -/
def generate_cinematic_prompt_from_image (apiKey projectId : String) (fileOk : Bool)
    (dataUrl : String) (apiContent : Option (Option String)) : Except String String :=
  if pyStrip apiKey = "" ∨ pyStrip projectId = "" then
    Except.error "Missing OpenAI credentials. Please set OPENAI_API_KEY and OPENAI_PROJECT."
  else
    match encode_image_to_data_url fileOk dataUrl with
    | Except.error e => Except.error e
    | Except.ok _ =>
      match apiContent with
      | none => Except.ok FALLBACK_PROMPT
      | some c => Except.ok (pyStrip (c.getD ""))

/-! ## Helper lemmas -/

/-- Each iteration of the polling loop makes exactly one external status
query, so a run over `l` makes at most `l.length` queries. -/
theorem pollRun_queries_le (interval : Nat) (uploadOk : Bool) (path : String) :
    ∀ (l : List (Option TaskPayload)) (st : PollState),
      (pollRun interval uploadOk path l st).queries ≤ st.queries + l.length := by
  intro l
  induction l with
  | nil => intro st; simp [pollRun]
  | cons r rest ih =>
    intro st
    cases r with
    | none =>
      simp only [pollRun]
      have h := ih { st with queries := st.queries + 1, sleeps := st.sleeps + interval }
      simp only [List.length_cons] at h ⊢
      omega
    | some p =>
      simp only [pollRun]
      by_cases h1 : pyUpper p.status = "SUCCEEDED"
      · rw [if_pos h1]
        show st.queries + 1 ≤ st.queries + (rest.length + 1)
        omega
      · rw [if_neg h1]
        by_cases h2 : pyUpper p.status = "FAILED"
        · rw [if_pos h2]
          show st.queries + 1 ≤ st.queries + (rest.length + 1)
          omega
        · rw [if_neg h2]
          have h := ih { st with queries := st.queries + 1, sleeps := st.sleeps + interval }
          simp only [List.length_cons] at h ⊢
          omega

/-- A polling run in which no consumed check result is terminal leaves the
video row untouched, makes one query per check and sleeps `interval` seconds
after each check. -/
theorem pollRun_nonterminal (interval : Nat) (uploadOk : Bool) (path : String) :
    ∀ (l : List (Option TaskPayload)) (st : PollState),
      (∀ r ∈ l, ∀ p, r = some p →
        pyUpper p.status ≠ "SUCCEEDED" ∧ pyUpper p.status ≠ "FAILED") →
      (pollRun interval uploadOk path l st).status = st.status ∧
      (pollRun interval uploadOk path l st).videoUrl = st.videoUrl ∧
      (pollRun interval uploadOk path l st).queries = st.queries + l.length ∧
      (pollRun interval uploadOk path l st).sleeps = st.sleeps + interval * l.length := by
  intro l
  induction l with
  | nil => intro st _; simp [pollRun]
  | cons r rest ih =>
    intro st hl
    have htail : ∀ r ∈ rest, ∀ p, r = some p →
        pyUpper p.status ≠ "SUCCEEDED" ∧ pyUpper p.status ≠ "FAILED" :=
      fun r hr => hl r (List.mem_cons_of_mem _ hr)
    cases r with
    | none =>
      simp only [pollRun]
      obtain ⟨e1, e2, e3, e4⟩ :=
        ih { st with queries := st.queries + 1, sleeps := st.sleeps + interval } htail
      refine ⟨e1, e2, ?_, ?_⟩
      · rw [e3]; simp only [List.length_cons]; omega
      · rw [e4]; simp only [List.length_cons]; ring
    | some p =>
      have hp := hl (some p) (List.mem_cons_self _ _) p rfl
      simp only [pollRun]
      rw [if_neg hp.1, if_neg hp.2]
      obtain ⟨e1, e2, e3, e4⟩ :=
        ih { st with queries := st.queries + 1, sleeps := st.sleeps + interval } htail
      refine ⟨e1, e2, ?_, ?_⟩
      · rw [e3]; simp only [List.length_cons]; omega
      · rw [e4]; simp only [List.length_cons]; ring

/-! ## Claims -/

/-- Claim C1 (code_bug evaluation).  For an order with `is_processing =
false` and `processed_at = null`, handling the payment-success confirmation
launches the generation batch but leaves all three guard fields unchanged
(no statement in the repository ever assigns them), so a redelivered
confirmation launches a second processing run: both begin-processing
attempts succeed, contradicting both halves of the claim. -/
theorem claim_C1_duplicate_guard_never_arms :
    (handle_checkout_session_completed ⟨false, none, none⟩ true).1 = true ∧
    (handle_checkout_session_completed ⟨false, none, none⟩ true).2 = ⟨false, none, none⟩ ∧
    (handle_checkout_session_completed
      (handle_checkout_session_completed ⟨false, none, none⟩ true).2 true).1 = true := by
  decide

/-- Claim C2 counterexample.  An order whose latest-per-image statuses are
all `failed` (and none `processing`) is reported `submitted`, not `failed`,
by the client-facing aggregation of `get_client_orders`. -/
theorem claim_C2_cex :
    client_order_status ["failed"] = "submitted" ∧
    client_order_status ["failed"] ≠ "failed" := by
  decide

/-- Claim C2 as amended.  When the latest-per-image status multiset contains
no `processing` member and at least one `failed` member, the admin
aggregation (`get_order_status`) returns `failed`, while the client
aggregation (`get_client_orders`), which has no `failed` branch, returns
`submitted`. -/
theorem claim_C2_amended (statuses : List String)
    (hp : "processing" ∉ statuses) (hf : "failed" ∈ statuses) :
    admin_order_status statuses = "failed" ∧
    client_order_status statuses = "submitted" := by
  have hall : ¬ (statuses.all (fun s => s == "completed" || s == "succeeded") = true) := by
    rw [List.all_eq_true]
    intro h
    have := h "failed" hf
    simp at this
  have hanyp : ¬ (statuses.any (fun s => s == "processing") = true) := by
    rw [List.any_eq_true]
    rintro ⟨x, hx, hxp⟩
    rw [beq_iff_eq] at hxp
    exact hp (hxp ▸ hx)
  have hanyf : statuses.any (fun s => s == "failed") = true := by
    rw [List.any_eq_true]
    exact ⟨"failed", hf, by simp⟩
  constructor
  · unfold admin_order_status
    rw [if_neg hall, if_neg hanyp, if_pos hanyf]
  · unfold client_order_status
    have hclient : ¬ ((!statuses.isEmpty && statuses.all (fun s => s == "succeeded")) = true) := by
      rw [Bool.and_eq_true]
      rintro ⟨-, hall2⟩
      rw [List.all_eq_true] at hall2
      have := hall2 "failed" hf
      simp at this
    rw [if_neg hclient, if_neg hanyp]

/-- Claim C2 witness: a concrete mixed batch with one failure and no
processing unit. -/
theorem claim_C2_witness :
    admin_order_status ["succeeded", "failed"] = "failed" ∧
    client_order_status ["succeeded", "failed"] = "submitted" :=
  claim_C2_amended ["succeeded", "failed"] (by decide) (by decide)

/-- Claim C3 counterexample.  For an order with no video units (S empty) the
admin aggregation returns `completed` (Python's `all` over an empty
collection is `True`), not `submitted`. -/
theorem claim_C3_cex :
    admin_order_status [] = "completed" ∧ admin_order_status [] ≠ "submitted" := by
  decide

/-- Claim C3 as amended.  The client aggregation returns `completed` exactly
when S is non-empty and every member is `succeeded`, and returns `submitted`
on empty S; the admin aggregation instead returns `completed` exactly when
every member is `completed` or `succeeded`, which includes the empty S. -/
theorem claim_C3_amended (statuses : List String) :
    (client_order_status statuses = "completed" ↔
      statuses ≠ [] ∧ ∀ s ∈ statuses, s = "succeeded") ∧
    client_order_status [] = "submitted" ∧
    (admin_order_status statuses = "completed" ↔
      ∀ s ∈ statuses, s = "completed" ∨ s = "succeeded") := by
  refine ⟨?_, by decide, ?_⟩
  · unfold client_order_status
    by_cases hc : (!statuses.isEmpty && statuses.all (fun s => s == "succeeded")) = true
    · rw [if_pos hc]
      simp only [Bool.and_eq_true, Bool.not_eq_true', List.all_eq_true, beq_iff_eq] at hc
      constructor
      · intro _
        refine ⟨?_, hc.2⟩
        intro hnil
        rw [hnil] at hc
        simp at hc
      · intro _; rfl
    · rw [if_neg hc]
      constructor
      · intro h
        by_cases hpb : statuses.any (fun s => s == "processing") = true
        · rw [if_pos hpb] at h; exact absurd h (by decide)
        · rw [if_neg hpb] at h; exact absurd h (by decide)
      · rintro ⟨hne, hall⟩
        exfalso
        apply hc
        simp only [Bool.and_eq_true, Bool.not_eq_true', List.all_eq_true, beq_iff_eq]
        refine ⟨?_, hall⟩
        simpa [List.isEmpty_iff] using hne
  · unfold admin_order_status
    by_cases hc : (statuses.all (fun s => s == "completed" || s == "succeeded")) = true
    · rw [if_pos hc]
      simp only [List.all_eq_true, Bool.or_eq_true, beq_iff_eq] at hc
      exact ⟨fun _ => hc, fun _ => rfl⟩
    · rw [if_neg hc]
      constructor
      · intro h
        by_cases hpb : statuses.any (fun s => s == "processing") = true
        · rw [if_pos hpb] at h; exact absurd h (by decide)
        · rw [if_neg hpb] at h
          by_cases hfb : statuses.any (fun s => s == "failed") = true
          · rw [if_pos hfb] at h; exact absurd h (by decide)
          · rw [if_neg hfb] at h; exact absurd h (by decide)
      · intro hall
        exfalso
        apply hc
        simp only [List.all_eq_true, Bool.or_eq_true, beq_iff_eq]
        exact hall

/-- Claim C4 counterexample.  In the initial batch path
(`process_videos_for_order`), a successful generation whose Dropbox archival
fails is recorded with state `failed` and a discarded (null) URL. -/
theorem claim_C4_cex :
    processVideoOutcome (some ⟨["https://runway.example/video.mp4"], "task-1"⟩) false
        "/quantumtour/video output/video_1.mp4"
      = ("failed", none, some "task-1") := by
  decide

/-- Claim C4 as amended.  In the polling reconciler (`poll_runway_status`)
archival failure is best-effort: the unit still records `succeeded` with the
original output URL.  In the initial batch path
(`process_videos_for_order`), however, archival failure marks the unit
`failed` and discards the URL. -/
theorem claim_C4_amended (u dropboxPath jobId : String)
    (rest : List (Option TaskPayload)) (st : PollState) (interval : Nat) :
    (pollRun interval false dropboxPath
        (some ⟨"SUCCEEDED", some u⟩ :: rest) st).status = "succeeded" ∧
    (pollRun interval false dropboxPath
        (some ⟨"SUCCEEDED", some u⟩ :: rest) st).videoUrl = some u ∧
    (processVideoOutcome (some ⟨[u], jobId⟩) false dropboxPath).1 = "failed" ∧
    (processVideoOutcome (some ⟨[u], jobId⟩) false dropboxPath).2.1 = none :=
  ⟨rfl, rfl, rfl, rfl⟩

/-- Claim C5 counterexample.  `admin_upload_final_video` creates a fresh
unit with iteration 1 for every image of the user, without consulting
existing units; for an image that already has a unit with iteration 1 the
new unit's iteration is not strictly greater than all existing ones. -/
theorem claim_C5_cex : ¬ strictlyAboveAll [1] admin_final_video_iteration := by
  unfold strictlyAboveAll
  decide

/-- Claim C5 as amended.  A feedback child's iteration is
`(parent.iteration or 1) + 1`, strictly greater than its parent's (but not
necessarily than every existing unit's for the image); a regeneration's
iteration is strictly greater than the latest existing iteration, and 1 when
none exists; initial batch units and admin final-video units always get
iteration 1, the latter even when units already exist. -/
theorem claim_C5_amended (k : Nat) :
    feedback_child_iteration k > k ∧
    admin_regenerate_iteration (some k) > k ∧
    admin_regenerate_iteration none = 1 ∧
    process_initial_iteration = 1 ∧
    admin_final_video_iteration = 1 := by
  refine ⟨?_, ?_, rfl, rfl, rfl⟩
  · unfold feedback_child_iteration pyOrDefault
    split <;> omega
  · unfold admin_regenerate_iteration pyOrDefault
    show (if k = 0 then 0 else k) + 1 > k
    split <;> omega

/-- Claim C6 (code_bug evaluation).  In `poll_runway_status` the sanitized
per-user folder is bound to the unused variable `agent_folder` while
`user_folder` keeps its initial `""`, so the archival destination for a user
with email `jane@example.com` contains no per-user segment - even though the
sanitizer would produce `jane` and the sibling batch path does include it. -/
theorem claim_C6_poll_path_drops_user_folder :
    pollDropboxPath (some (some ⟨1, some "jane@example.com", none⟩)) 7
      = "/quantumtour/video output/video_7.mp4" ∧
    build_agent_folder_name (displayIdentity (some ⟨1, some "jane@example.com", none⟩))
      = "jane" ∧
    processDropboxPath (some (some ⟨1, some "jane@example.com", none⟩)) none 7
      = "/quantumtour/jane/video output/video_7.mp4" := by
  decide

/-- Claim C7 counterexample.  A webhook payload whose status is any other
non-empty string (here `"RUNNING"`) is stored verbatim on the matched unit,
leaving the documented status set. -/
theorem claim_C7_cex :
    runwayml_webhook_status "processing" (some "RUNNING") = "RUNNING" ∧
    runwayml_webhook_status "processing" (some "RUNNING") ∉ VALID_STATUSES := by
  decide

/-- Claim C7 as amended.  The admin update endpoint only ever stores members
of `{queued, processing, succeeded, failed}` (it rejects everything else
with HTTP 400); the webhook keeps the stored status in that set only when
the payload status is absent, empty, or itself in the set - any other
non-empty payload status is stored verbatim. -/
theorem claim_C7_amended :
    (∀ raw internal, admin_update_order_status raw = some internal →
      internal ∈ VALID_STATUSES) ∧
    (∀ current payloadStatus, current ∈ VALID_STATUSES →
      (∀ s, payloadStatus = some s → s = "" ∨ s ∈ VALID_STATUSES) →
      runwayml_webhook_status current payloadStatus ∈ VALID_STATUSES) := by
  constructor
  · intro raw internal h
    unfold admin_update_order_status at h
    by_cases hm : admin_internal_status raw ∈ VALID_STATUSES
    · rw [if_pos hm] at h
      cases h
      exact hm
    · rw [if_neg hm] at h
      cases h
  · intro current ps hcur hps
    cases ps with
    | none => exact hcur
    | some s =>
      show (if s = "succeeded" then "succeeded"
            else if s = "failed" then "failed"
            else if s ≠ "" then s else current) ∈ VALID_STATUSES
      rcases hps s rfl with h0 | hin
      · subst h0
        rw [if_neg (by decide : ¬ ("" : String) = "succeeded"),
          if_neg (by decide : ¬ ("" : String) = "failed"),
          if_neg (by decide : ¬ ("" : String) ≠ "")]
        exact hcur
      · by_cases h1 : s = "succeeded"
        · rw [if_pos h1]; decide
        · rw [if_neg h1]
          by_cases h2 : s = "failed"
          · rw [if_pos h2]; decide
          · rw [if_neg h2]
            by_cases h3 : s ≠ ""
            · rw [if_pos h3]; exact hin
            · rw [if_neg h3]; exact hcur

/-- Claim C7 witness: a valid payload status flows through the webhook and
stays inside the documented set. -/
theorem claim_C7_witness :
    runwayml_webhook_status "queued" (some "failed") ∈ VALID_STATUSES :=
  claim_C7_amended.2 "queued" (some "failed") (by decide)
    (fun s hs => by cases hs; exact Or.inr (by decide))

/-- Claim C8.  The polling reconciler makes at most `maxChecks` external
status queries; and when every consumed check result is non-terminal, it
makes exactly `maxChecks` queries, sleeps `interval` seconds after each, and
leaves the unit's stored state and URL unchanged (still `processing` when it
started as such) - it is not forced to `failed`. -/
theorem claim_C8_poll_bounded (checks : Nat → Option TaskPayload) (uploadOk : Bool)
    (dropboxPath : String) (maxChecks interval : Nat) (st : PollState) :
    (poll_runway_status checks uploadOk dropboxPath maxChecks interval st).queries
        ≤ st.queries + maxChecks ∧
    ((∀ i, i < maxChecks → ∀ p, checks i = some p →
        pyUpper p.status ≠ "SUCCEEDED" ∧ pyUpper p.status ≠ "FAILED") →
      (poll_runway_status checks uploadOk dropboxPath maxChecks interval st).status
          = st.status ∧
      (poll_runway_status checks uploadOk dropboxPath maxChecks interval st).videoUrl
          = st.videoUrl ∧
      (poll_runway_status checks uploadOk dropboxPath maxChecks interval st).queries
          = st.queries + maxChecks ∧
      (poll_runway_status checks uploadOk dropboxPath maxChecks interval st).sleeps
          = st.sleeps + interval * maxChecks) := by
  have hlen : ((List.range maxChecks).map checks).length = maxChecks := by simp
  constructor
  · unfold poll_runway_status
    have h := pollRun_queries_le interval uploadOk dropboxPath
      ((List.range maxChecks).map checks) st
    rw [hlen] at h
    exact h
  · intro hnt
    unfold poll_runway_status
    have hl : ∀ r ∈ (List.range maxChecks).map checks, ∀ p, r = some p →
        pyUpper p.status ≠ "SUCCEEDED" ∧ pyUpper p.status ≠ "FAILED" := by
      intro r hr p hrp
      rw [List.mem_map] at hr
      obtain ⟨i, hi, hci⟩ := hr
      rw [List.mem_range] at hi
      exact hnt i hi p (by rw [hci]; exact hrp)
    have h := pollRun_nonterminal interval uploadOk dropboxPath
      ((List.range maxChecks).map checks) st hl
    rw [hlen] at h
    exact h

/-- Claim C8 witness: two checks that both report a non-terminal status
leave the unit in `processing` after exactly 2 queries and 2 sleeps of 5
seconds. -/
theorem claim_C8_witness :
    (poll_runway_status (fun _ => some ⟨"RUNNING", none⟩) false "p" 2 5
        ⟨"processing", none, 0, 0⟩).status = "processing" ∧
    (poll_runway_status (fun _ => some ⟨"RUNNING", none⟩) false "p" 2 5
        ⟨"processing", none, 0, 0⟩).queries = 0 + 2 ∧
    (poll_runway_status (fun _ => some ⟨"RUNNING", none⟩) false "p" 2 5
        ⟨"processing", none, 0, 0⟩).sleeps = 0 + 5 * 2 := by
  have h := (claim_C8_poll_bounded (fun _ => some ⟨"RUNNING", none⟩) false "p" 2 5
      ⟨"processing", none, 0, 0⟩).2
    (by
      intro i _ p hp
      cases hp
      exact ⟨by decide, by decide⟩)
  exact ⟨h.1, h.2.2.1, h.2.2.2⟩

/-- Claim C9 counterexample.  With empty (missing) OpenAI credentials the
prompt deriver raises `RuntimeError` to its caller instead of returning the
fixed fallback string. -/
theorem claim_C9_cex :
    generate_cinematic_prompt_from_image "" "" true "data:image/jpeg;base64,AAAA" none
      = Except.error
          "Missing OpenAI credentials. Please set OPENAI_API_KEY and OPENAI_PROJECT." :=
  rfl

/-- Claim C9 as amended.  When credentials are present and the image file is
readable, the deriver never raises: a failing OpenAI call returns the fixed
fallback string and a successful call returns the stripped message content.
Missing credentials or an unreadable image file, however, raise to the
caller. -/
theorem claim_C9_amended (apiKey projectId dataUrl : String)
    (h1 : pyStrip apiKey ≠ "") (h2 : pyStrip projectId ≠ "") :
    generate_cinematic_prompt_from_image apiKey projectId true dataUrl none
      = Except.ok FALLBACK_PROMPT ∧
    (∀ c, generate_cinematic_prompt_from_image apiKey projectId true dataUrl (some c)
      = Except.ok (pyStrip (c.getD ""))) := by
  have hcond : ¬ (pyStrip apiKey = "" ∨ pyStrip projectId = "") := by
    rintro (h | h)
    · exact h1 h
    · exact h2 h
  constructor
  · unfold generate_cinematic_prompt_from_image
    rw [if_neg hcond]
    rfl
  · intro c
    unfold generate_cinematic_prompt_from_image
    rw [if_neg hcond]
    rfl

/-- Claim C9 witness: with concrete non-empty credentials, a failing OpenAI
call yields the fallback prompt. -/
theorem claim_C9_witness :
    generate_cinematic_prompt_from_image "sk-key" "proj" true
        "data:image/jpeg;base64,AAAA" none = Except.ok FALLBACK_PROMPT :=
  (claim_C9_amended "sk-key" "proj" "data:image/jpeg;base64,AAAA"
    (by decide) (by decide)).1

/-- Claim C10.  When the feedback flow fails after the Feedback row's commit
(the generation steps raise), the caller receives an error, the committed
Feedback row persists (`db.rollback()` only discards pending rows), no child
video unit is created, and the state differs from its pre-call value. -/
theorem claim_C10_feedback_persists_on_error (db : DbSession) (parent : VideoRow)
    (feedbackText newPrompt : String) (childId : Nat) (childUrl : String)
    (hpf : db.pendingFeedbacks = []) (hpv : db.pendingVideos = []) :
    (submit_feedback db parent feedbackText newPrompt false childId childUrl).1.feedbacks
        = db.feedbacks ++ [⟨parent.id, feedbackText, newPrompt⟩] ∧
    (submit_feedback db parent feedbackText newPrompt false childId childUrl).1.videos
        = db.videos ∧
    (submit_feedback db parent feedbackText newPrompt false childId childUrl).2
        = Except.error "Error generating video" ∧
    (submit_feedback db parent feedbackText newPrompt false childId childUrl).1.feedbacks
        ≠ db.feedbacks := by
  have hstate :
      (submit_feedback db parent feedbackText newPrompt false childId childUrl).1
        = { feedbacks := db.feedbacks ++ [⟨parent.id, feedbackText, newPrompt⟩]
            videos := db.videos
            pendingFeedbacks := []
            pendingVideos := [] } := by
    unfold submit_feedback DbSession.addFeedback DbSession.commit DbSession.rollback
    simp [hpf, hpv]
  refine ⟨by rw [hstate], by rw [hstate], rfl, ?_⟩
  rw [hstate]
  intro h
  have := congrArg List.length h
  simp at this

/-- Claim C10 witness: a concrete failing submission starting from an empty
database. -/
theorem claim_C10_witness :
    (submit_feedback ⟨[], [], [], []⟩ ⟨3, 2, 1, "succeeded", none, none, none⟩
        "make it brighter" "p2" false 5 "u").1.feedbacks
      = [⟨3, "make it brighter", "p2"⟩] ∧
    (submit_feedback ⟨[], [], [], []⟩ ⟨3, 2, 1, "succeeded", none, none, none⟩
        "make it brighter" "p2" false 5 "u").1.videos = [] := by
  have h := claim_C10_feedback_persists_on_error ⟨[], [], [], []⟩
    ⟨3, 2, 1, "succeeded", none, none, none⟩ "make it brighter" "p2" 5 "u" rfl rfl
  exact ⟨by simpa using h.1, h.2.1⟩

end QuantumTour
